import Mathlib

/-!
Verification of the article-summarizer backend (src/main.py), a thin HTTP
relay: it validates an email and article URL, generates a session identifier,
and forwards a JSON payload to one configured downstream webhook.

Shallow embedding conventions:
* Strings are handled through their character lists (`String.data`).
* Python `str.strip()` is `pstrip` (ASCII whitespace, which covers every
  input occurring here).
* The URL regex of `validate_url` (main.py lines 63 to 69) is embedded as an
  explicit regex AST `RE` together with a backtracking matcher `matchRE`;
  `urlPattern` transcribes the pattern character class by character class.
* The `/submit` handler is a pure function over an explicit downstream
  outcome (`DownstreamResult`) and records its side effects (session-id
  generation, outbound calls, warning logs) in an `Effects` value.
* `uuid.uuid4` and pydantic `EmailStr` are library code, not part of the
  repository; they are modelled from the spec where needed.
-/

/-- ASCII whitespace as recognised by Python `str.strip()` and the regex
class backslash-s: space, tab, newline, carriage return, vertical tab,
form feed (codepoints 32 and 9 to 13). -/
def isPySpace (c : Char) : Bool :=
  c.toNat == 32 || (9 ≤ c.toNat && c.toNat ≤ 13)

/-- Python `str.strip()`: drop leading and trailing whitespace. -/
def pstripL (l : List Char) : List Char :=
  (((l.dropWhile isPySpace).reverse.dropWhile isPySpace)).reverse

/-- `str.strip()` on strings. -/
def pstrip (s : String) : String := ⟨pstripL s.data⟩

/-- Python `url_str.startswith(('http:' ++ '//', 'https:' ++ '//'))` from
main.py line 59 (case-sensitive, unlike the regex). -/
def startsWithHttp (l : List Char) : Bool :=
  "http://".data.isPrefixOf l || "https://".data.isPrefixOf l

/-- Lower-casing of an ASCII codepoint, for the IGNORECASE regex flag. -/
def lowerNat (n : Nat) : Nat := if 65 ≤ n && n ≤ 90 then n + 32 else n

/-- Regex class `[A-Z]` under IGNORECASE: an ASCII letter. -/
def isAZ (c : Char) : Bool :=
  (65 ≤ c.toNat && c.toNat ≤ 90) || (97 ≤ c.toNat && c.toNat ≤ 122)

/-- Regex class backslash-d: an ASCII digit. -/
def isDigitC (c : Char) : Bool := 48 ≤ c.toNat && c.toNat ≤ 57

/-- Regex class `[A-Z0-9]` under IGNORECASE. -/
def isAZ09 (c : Char) : Bool := isAZ c || isDigitC c

/-- Regex class `[A-Z0-9-]` under IGNORECASE. -/
def isAZ09dash (c : Char) : Bool := isAZ09 c || c == '-'

/-- Regex class backslash-S: any non-whitespace character. -/
def isNonSpace (c : Char) : Bool := !(isPySpace c)

/-- Regex abstract syntax: empty word, character class, concatenation,
alternation, optional, and at-most-n repetitions. -/
inductive RE where
  | eps : RE
  | cls : (Char → Bool) → RE
  | seq : RE → RE → RE
  | alt : RE → RE → RE
  | opt : RE → RE
  | repMax : RE → Nat → RE

/-- `repMaxMatch m n s k`: some prefix of `s` splits into at most `n`
pieces each accepted by the matcher `m`, and `k` accepts the rest. -/
def repMaxMatch (m : List Char → (List Char → Bool) → Bool) :
    Nat → List Char → (List Char → Bool) → Bool
  | 0, s, k => k s
  | n+1, s, k => k s || m s (fun s1 => repMaxMatch m n s1 k)

/-- Backtracking regex matcher in continuation-passing style.  `matchRE r s
k` is true iff some prefix of `s` matches `r` and `k` accepts the
corresponding suffix. -/
def matchRE : RE → List Char → (List Char → Bool) → Bool
  | .eps, s, k => k s
  | .cls _, [], _ => false
  | .cls p, c :: s, k => p c && k s
  | .seq a b, s, k => matchRE a s (fun s1 => matchRE b s1 k)
  | .alt a b, s, k => matchRE a s k || matchRE b s k
  | .opt a, s, k => matchRE a s k || k s
  | .repMax a n, s, k => repMaxMatch (fun s1 k1 => matchRE a s1 k1) n s k

/-- Bounded encoding of the regex `+` operator: one occurrence followed by
at most `n` further occurrences.  It has exactly the language of `+`
restricted to words of length at most `n + 1` occurrences; in `urlPattern`
every repeated body consumes at least one character, so taking `n` to be
the length of the input string makes the encoding exact. -/
def rePlus (n : Nat) (a : RE) : RE := .seq a (.repMax a n)

/-- A single literal character under IGNORECASE. -/
def ciChar (c : Char) : RE := .cls (fun d => lowerNat d.toNat == lowerNat c.toNat)

/-- A literal string under IGNORECASE. -/
def ciStr (s : String) : RE := s.data.foldr (fun c r => .seq (ciChar c) r) .eps

/-- Regex `[A-Z0-9](?:[A-Z0-9-]{0,61}[A-Z0-9])?`: one domain label. -/
def labelRE : RE :=
  .seq (.cls isAZ09) (.opt (.seq (.repMax (.cls isAZ09dash) 61) (.cls isAZ09)))

/-- Regex `(?:label\.)+[A-Z]{2,6}\.?`: a dotted hostname ending in a
2-to-6-letter TLD with an optional trailing dot. -/
def domainRE (n : Nat) : RE :=
  .seq (rePlus n (.seq labelRE (ciChar '.')))
    (.seq (.cls isAZ) (.seq (.cls isAZ) (.seq (.repMax (.cls isAZ) 4) (.opt (ciChar '.')))))

/-- Regex `\d{1,3}`: one to three digits. -/
def d13 : RE := .seq (.cls isDigitC) (.repMax (.cls isDigitC) 2)

/-- Regex `\d{1,3}\.\d{1,3}\.\d{1,3}\.\d{1,3}`: a dotted-quad IP literal. -/
def ipRE : RE :=
  .seq d13 (.seq (ciChar '.') (.seq d13 (.seq (ciChar '.') (.seq d13 (.seq (ciChar '.') d13)))))

/-- Regex `(?:domain|localhost|ip)`: the host alternatives. -/
def hostRE (n : Nat) : RE := .alt (domainRE n) (.alt (ciStr "localhost") ipRE)

/-- Regex `(?::\d+)?`: an optional port. -/
def portRE (n : Nat) : RE := .opt (.seq (ciChar ':') (rePlus n (.cls isDigitC)))

/-- Regex `(?:/?|[/?]\S+)`: an empty path, a bare slash, or a slash or
question mark followed by non-whitespace characters. -/
def pathRE (n : Nat) : RE :=
  .alt (.opt (ciChar '/'))
    (.seq (.cls (fun c => c == '/' || c == '?')) (rePlus n (.cls isNonSpace)))

/-- Regex `https?://`. -/
def schemeRE : RE := .seq (ciStr "http") (.seq (.opt (ciChar 's')) (ciStr "://"))

/-- The whole URL pattern of main.py lines 63 to 69. -/
def urlPattern (n : Nat) : RE :=
  .seq schemeRE (.seq (hostRE n) (.seq (portRE n) (pathRE n)))

/-- Python `$` under `re.match`: end of string, or just before one final
newline. -/
def endAnchor (l : List Char) : Bool := l.isEmpty || l == ['\n']

/-- `url_pattern.match(url_str)` viewed as a boolean: the anchored pattern
matches the whole string. -/
def urlRegexMatch (l : List Char) : Bool :=
  matchRE (urlPattern l.length) l endAnchor

/-- The normalization half of `validate_url` (main.py lines 56 to 60):
strip whitespace, then prepend `https://` when no recognised scheme is
present. -/
def normalizeUrlL (l : List Char) : List Char :=
  if startsWithHttp (pstripL l) then pstripL l else "https://".data ++ pstripL l

/-- Embeds `validate_url` from main.py lines 54 to 74 on character lists:
normalize, then require the regex to match; `none` models the raised
`ValueError`. -/
def validateUrlL (l : List Char) : Option (List Char) :=
  if urlRegexMatch (normalizeUrlL l) then some (normalizeUrlL l) else none

/-- `validate_url` on strings. -/
def validate_url (s : String) : Option String := (validateUrlL s.data).map String.mk

/-- Modelled from the spec: pydantic `EmailStr` (library code, not part of
this repository) requires standard email-address syntax, simplified here to:
exactly one at-sign separating a nonempty whitespace-free local part from a
nonempty domain of letters, digits, dots and hyphens that contains an
interior dot. -/
def emailValid (s : String) : Bool :=
  let l := s.data
  let locPart := l.takeWhile (fun c => !(c == '@'))
  match l.dropWhile (fun c => !(c == '@')) with
  | [] => false
  | _ :: domain =>
    !(locPart.isEmpty) && locPart.all isNonSpace &&
    !(domain.isEmpty) && domain.all (fun c => isAZ09 c || c == '.' || c == '-') &&
    domain.contains '.' && !(domain.head? == some '.') && !(domain.getLast? == some '.')

/-- Value of one lowercase hexadecimal digit. -/
def hexChar (n : Nat) : Char :=
  if n < 10 then Char.ofNat (48 + n) else Char.ofNat (87 + n)

/-- Big-endian fixed-width lowercase hexadecimal digits of `n`. -/
def hexFixed : Nat → Nat → List Char
  | 0, _ => []
  | w+1, n => hexFixed w (n / 16) ++ [hexChar (n % 16)]

/-- Numeric value of one hexadecimal digit character. -/
def hexCharVal (c : Char) : Nat :=
  if 97 ≤ c.toNat then c.toNat - 87 else c.toNat - 48

/-- Numeric value of a big-endian hexadecimal digit list. -/
def hexValL (l : List Char) : Nat := l.foldl (fun a c => 16 * a + hexCharVal c) 0

/-- A lowercase hexadecimal digit. -/
def isHexDigitC (c : Char) : Bool := isDigitC c || (97 ≤ c.toNat && c.toNat ≤ 102)

/-- Modelled from the spec: `str(uuid.uuid4())` (library code, not part of
this repository), the randomly generated unique token created fresh per
request.  The randomness is an integer `r < 16 ^ 30` supplying the 30 free
hexadecimal digits of a version-4 UUID in the canonical 8-4-4-4-12 layout;
the version nibble is `4` and the variant nibble is fixed to `8`. -/
def uuid4Model (r : Nat) : String :=
  ⟨hexFixed 8 (r / 16^22) ++
   '-' :: (hexFixed 4 (r / 16^18 % 16^4) ++
   '-' :: '4' :: (hexFixed 3 (r / 16^15 % 16^3) ++
   '-' :: '8' :: (hexFixed 3 (r / 16^12 % 16^3) ++
   '-' :: hexFixed 12 (r % 16^12))))⟩

/-- Split a character list at every dash. -/
def splitDash : List Char → List (List Char)
  | [] => [[]]
  | c :: rest =>
    if c = '-' then [] :: splitDash rest
    else
      match splitDash rest with
      | [] => [[c]]
      | g :: gs => (c :: g) :: gs

/-- A canonically formatted version-4 UUID string: five dash-separated
groups of lowercase hexadecimal digits with lengths 8, 4, 4, 4 and 12, the
third group starting with `4` and the fourth with `8`, `9`, `a` or `b`. -/
def isUUIDv4 (s : String) : Bool :=
  match splitDash s.data with
  | [g1, g2, g3, g4, g5] =>
    g1.length == 8 && g2.length == 4 && g3.length == 4 && g4.length == 4 &&
    g5.length == 12 &&
    (g1 ++ g2 ++ g3 ++ g4 ++ g5).all isHexDigitC &&
    g3.head? == some '4' &&
    (g4.head? == some '8' || g4.head? == some '9' ||
     g4.head? == some 'a' || g4.head? == some 'b')
  | _ => false

/-- The JSON payload POSTed to the downstream webhook (main.py lines 161
to 165). -/
structure OutboundPayload where
  email : String
  article_url : String
  session_id : String
deriving DecidableEq

/-- The observable side effects of one `/submit` request: the session
identifiers generated, the outbound webhook calls issued, and whether the
bad-status warning of main.py line 185 was logged. -/
structure Effects where
  generatedSessionIds : List String
  calls : List OutboundPayload
  warnedBadStatus : Bool
deriving DecidableEq

/-- No side effects. -/
def noEffects : Effects := ⟨[], [], false⟩

/-- Outcome of the single downstream POST (main.py lines 171 to 217):
an HTTP response with some status code, `httpx.TimeoutException`,
another `httpx.RequestError`, or any other exception. -/
inductive DownstreamResult where
  | response (status : Nat)
  | timeout
  | requestError
  | otherError
deriving DecidableEq

/-- The `SubmissionResponse` body (main.py lines 88 to 91). -/
structure SubmissionResponse where
  success : Bool
  message : String
  session_id : String
deriving DecidableEq

/-- Result of the handler: a 200 response with a `SubmissionResponse`
body, or a raised `HTTPException` with a status code and detail. -/
inductive SubmitResult where
  | ok (resp : SubmissionResponse)
  | httpError (status : Nat) (detail : String)
deriving DecidableEq

/-- A validated request body (main.py lines 77 to 86): `article_url`
already holds the normalized URL produced by the pydantic validator. -/
structure ArticleSubmission where
  email : String
  article_url : String

/-- The environment configuration read at startup (main.py line 38). -/
structure Config where
  N8N_WEBHOOK_URL : Option String

/-- Embeds `submit_article` from main.py lines 130 to 217, after body
validation: check the webhook configuration, generate the session
identifier (supplied here as `session_id`, produced by `uuid4Model`),
build the payload, issue the single POST, and translate the downstream
outcome `ds` into the response, together with the side effects. -/
def submit_article (cfg : Config) (submission : ArticleSubmission)
    (ds : DownstreamResult) (session_id : String) : SubmitResult × Effects :=
  match cfg.N8N_WEBHOOK_URL with
  | none =>
    (.httpError 500 "Service configuration error. Please contact administrator.",
     noEffects)
  | some _ =>
    let payload : OutboundPayload :=
      ⟨submission.email, submission.article_url, session_id⟩
    match ds with
    | .response status =>
      (.ok ⟨true,
        "Article submitted successfully. You\x27ll receive the summary by email shortly.",
        session_id⟩,
       ⟨[session_id], [payload], !(status == 200 || status == 201)⟩)
    | .timeout =>
      (.ok ⟨true,
        "Article submitted successfully. Processing may take a few minutes. Check your email.",
        session_id⟩,
       ⟨[session_id], [payload], false⟩)
    | .requestError =>
      (.httpError 503 "Service temporarily unavailable. Please try again later.",
       ⟨[session_id], [payload], false⟩)
    | .otherError =>
      (.httpError 500 "An unexpected error occurred. Please try again later.",
       ⟨[session_id], [payload], false⟩)

/-- Body validation performed by FastAPI/pydantic before the handler runs
(main.py lines 77 to 86): the email must satisfy `EmailStr` and the URL
must pass `validate_url`, whose normalized result replaces the raw field. -/
def parseSubmission (email article_url : String) : Except String ArticleSubmission :=
  if emailValid email then
    match validate_url article_url with
    | some u => .ok ⟨email, u⟩
    | none => .error "Invalid article URL: Invalid URL format"
  else .error "value is not a valid email address"

/-- One whole `/submit` request: validate the body (a failure is the
framework 422 response, with no side effect), then run the handler with a
session identifier drawn from the randomness `r`. -/
def handleSubmit (cfg : Config) (email article_url : String)
    (ds : DownstreamResult) (r : Nat) : SubmitResult × Effects :=
  match parseSubmission email article_url with
  | .error e => (.httpError 422 e, noEffects)
  | .ok sub => submit_article cfg sub ds (uuid4Model r)

/-- Claim C1: with valid email and article_url and a configured downstream
endpoint, a downstream timeout still yields success=true with the generated
session_id and the delayed-processing message, not an error. -/
theorem submit_timeout_reports_success (w email url u : String) (r : Nat)
    (he : emailValid email = true) (hu : validate_url url = some u) :
    handleSubmit ⟨some w⟩ email url .timeout r =
      (.ok ⟨true,
        "Article submitted successfully. Processing may take a few minutes. Check your email.",
        uuid4Model r⟩,
       ⟨[uuid4Model r], [⟨email, u, uuid4Model r⟩], false⟩) := by
  simp [handleSubmit, parseSubmission, he, hu, submit_article]

/-- Witness for C1 at a concrete request. -/
theorem submit_timeout_reports_success_witness :
    emailValid "user@example.com" = true ∧
    validate_url "http://localhost:8080/x" = some "http://localhost:8080/x" ∧
    handleSubmit ⟨some "https://n8n.example/webhook"⟩ "user@example.com"
        "http://localhost:8080/x" .timeout 0 =
      (.ok ⟨true,
        "Article submitted successfully. Processing may take a few minutes. Check your email.",
        uuid4Model 0⟩,
       ⟨[uuid4Model 0],
        [⟨"user@example.com", "http://localhost:8080/x", uuid4Model 0⟩], false⟩) :=
  ⟨by decide, by decide,
   submit_timeout_reports_success "https://n8n.example/webhook" "user@example.com"
     "http://localhost:8080/x" "http://localhost:8080/x" 0 (by decide) (by decide)⟩

/-- Claim C2: with valid inputs and a configured endpoint, a downstream
connection/network failure (httpx.RequestError other than a timeout) yields
HTTP 503, and among the outcomes of the downstream POST (a response, a
timeout, or a request error) it is the only one surfaced as a hard
failure. -/
theorem submit_connection_error_503 (w email url u : String) (r : Nat)
    (he : emailValid email = true) (hu : validate_url url = some u) :
    (handleSubmit ⟨some w⟩ email url .requestError r).1 =
      .httpError 503 "Service temporarily unavailable. Please try again later." ∧
    ∀ ds : DownstreamResult, ds ≠ .otherError →
      ((∃ st d, (handleSubmit ⟨some w⟩ email url ds r).1 = .httpError st d) ↔
        ds = .requestError) := by
  constructor
  · simp [handleSubmit, parseSubmission, he, hu, submit_article]
  · intro ds hds
    cases ds with
    | response status => simp [handleSubmit, parseSubmission, he, hu, submit_article]
    | timeout => simp [handleSubmit, parseSubmission, he, hu, submit_article]
    | requestError =>
      simp only [iff_true]
      exact ⟨503, "Service temporarily unavailable. Please try again later.",
        by simp [handleSubmit, parseSubmission, he, hu, submit_article]⟩
    | otherError => exact absurd rfl hds

/-- Witness for C2 at a concrete request. -/
theorem submit_connection_error_503_witness :
    emailValid "user@example.com" = true ∧
    validate_url "example.com/page" = some "https://example.com/page" ∧
    ((handleSubmit ⟨some "https://n8n.example/webhook"⟩ "user@example.com"
        "example.com/page" .requestError 0).1 =
      .httpError 503 "Service temporarily unavailable. Please try again later." ∧
    ∀ ds : DownstreamResult, ds ≠ .otherError →
      ((∃ st d, (handleSubmit ⟨some "https://n8n.example/webhook"⟩ "user@example.com"
          "example.com/page" ds 0).1 = .httpError st d) ↔
        ds = .requestError)) :=
  ⟨by decide, by decide,
   submit_connection_error_503 "https://n8n.example/webhook" "user@example.com"
     "example.com/page" "https://example.com/page" 0 (by decide) (by decide)⟩

/-- Claim C3: when the downstream webhook endpoint is not configured, the
handler fails immediately with HTTP 500 and the configuration-error detail,
generating no session identifier and issuing no outbound call. -/
theorem submit_unconfigured_500 (submission : ArticleSubmission)
    (ds : DownstreamResult) (session_id : String) :
    submit_article ⟨none⟩ submission ds session_id =
      (.httpError 500 "Service configuration error. Please contact administrator.",
       noEffects) := by
  simp [submit_article]

/-- Claim C4: with valid inputs and a configured endpoint, a downstream
response with any status other than 200 or 201 logs the bad-status warning
but still returns success=true with the generated session_id. -/
theorem submit_bad_status_logged_success (w email url u : String) (r status : Nat)
    (he : emailValid email = true) (hu : validate_url url = some u)
    (h200 : status ≠ 200) (h201 : status ≠ 201) :
    handleSubmit ⟨some w⟩ email url (.response status) r =
      (.ok ⟨true,
        "Article submitted successfully. You\x27ll receive the summary by email shortly.",
        uuid4Model r⟩,
       ⟨[uuid4Model r], [⟨email, u, uuid4Model r⟩], true⟩) := by
  simp [handleSubmit, parseSubmission, he, hu, submit_article, h200, h201]

/-- Witness for C4 at a concrete request with downstream status 500. -/
theorem submit_bad_status_logged_success_witness :
    emailValid "user@example.com" = true ∧
    validate_url "example.com/page" = some "https://example.com/page" ∧
    (500 : Nat) ≠ 200 ∧ (500 : Nat) ≠ 201 ∧
    handleSubmit ⟨some "https://n8n.example/webhook"⟩ "user@example.com"
        "example.com/page" (.response 500) 0 =
      (.ok ⟨true,
        "Article submitted successfully. You\x27ll receive the summary by email shortly.",
        uuid4Model 0⟩,
       ⟨[uuid4Model 0],
        [⟨"user@example.com", "https://example.com/page", uuid4Model 0⟩], true⟩) :=
  ⟨by decide, by decide, by decide, by decide,
   submit_bad_status_logged_success "https://n8n.example/webhook" "user@example.com"
     "example.com/page" "https://example.com/page" 0 500 (by decide) (by decide)
     (by decide) (by decide)⟩

/-- Claim C6: a request whose email fails validation is rejected with a 422
validation error before any side effect: no session identifier is generated
and no downstream call is issued, whatever the configuration and the
downstream behaviour. -/
theorem submit_bad_email_rejected (cfg : Config) (email url : String)
    (ds : DownstreamResult) (r : Nat) (he : emailValid email = false) :
    handleSubmit cfg email url ds r =
      (.httpError 422 "value is not a valid email address", noEffects) := by
  simp [handleSubmit, parseSubmission, he]

/-- Witness for C6 at the spec example email. -/
theorem submit_bad_email_rejected_witness :
    emailValid "not-an-email" = false ∧
    handleSubmit ⟨some "https://n8n.example/webhook"⟩ "not-an-email"
        "example.com/page" (.response 200) 0 =
      (.httpError 422 "value is not a valid email address", noEffects) :=
  ⟨by decide,
   submit_bad_email_rejected ⟨some "https://n8n.example/webhook"⟩ "not-an-email"
     "example.com/page" (.response 200) 0 (by decide)⟩

/-- Claim C8: URL validation accepts a localhost host with an explicit port
and a path, returning the string unchanged. -/
theorem localhost_url_accepted :
    validate_url "http://localhost:8080/x" = some "http://localhost:8080/x" := by
  decide

/-- Claim C9: URL validation rejects the input with an exclamation mark in
the scheme: the input is already trimmed, lacks a recognised scheme, gets
`https://` prepended, and the result fails the regex, so validation fails. -/
theorem malformed_scheme_rejected :
    pstripL "ht!tp://bad".data = "ht!tp://bad".data ∧
    startsWithHttp "ht!tp://bad".data = false ∧
    urlRegexMatch "https://ht!tp://bad".data = false ∧
    validate_url "ht!tp://bad" = none := by
  refine ⟨by decide, by decide, by decide, by decide⟩

/-- Dropping while a predicate holds is idempotent. -/
theorem dropWhile_dropWhile (p : Char → Bool) (l : List Char) :
    (l.dropWhile p).dropWhile p = l.dropWhile p := by
  induction l with
  | nil => rfl
  | cons c t ih => by_cases h : p c <;> simp [List.dropWhile_cons, h, ih]

/-- The head of a nonempty `dropWhile` result fails the predicate. -/
theorem dropWhile_head_false (p : Char → Bool) :
    ∀ (l : List Char) (c : Char) (t : List Char),
      l.dropWhile p = c :: t → p c = false := by
  intro l
  induction l with
  | nil => intro c t h; simp at h
  | cons a t' ih =>
    intro c t h
    by_cases ha : p a
    · rw [List.dropWhile_cons, if_pos ha] at h; exact ih c t h
    · rw [List.dropWhile_cons, if_neg ha] at h
      cases h
      simpa using ha

/-- A list whose head fails the predicate is unchanged by `dropWhile`. -/
theorem dropWhile_eq_self_of_head (p : Char → Bool) (l : List Char) (c : Char)
    (h : l.head? = some c) (hc : p c = false) : l.dropWhile p = l := by
  cases l with
  | nil => rfl
  | cons a t =>
    rw [List.head?_cons, Option.some.injEq] at h
    subst h
    simp [List.dropWhile_cons, hc]

/-- A nonempty `dropWhile` result keeps the last element of the list. -/
theorem getLast?_dropWhile (p : Char → Bool) :
    ∀ l : List Char, l.dropWhile p ≠ [] → (l.dropWhile p).getLast? = l.getLast? := by
  intro l
  induction l with
  | nil => intro h; exact absurd rfl h
  | cons c t ih =>
    intro h
    by_cases hc : p c
    · rw [List.dropWhile_cons, if_pos hc] at h ⊢
      cases t with
      | nil => exact absurd rfl h
      | cons d t' => rw [ih h, List.getLast?_cons_cons]
    · rw [List.dropWhile_cons, if_neg hc]

/-- The first character of a stripped string is not whitespace. -/
theorem pstripL_head (l : List Char) (c : Char)
    (h : (pstripL l).head? = some c) : isPySpace c = false := by
  unfold pstripL at h
  rw [List.head?_reverse] at h
  have hne : (l.dropWhile isPySpace).reverse.dropWhile isPySpace ≠ [] := by
    intro he
    rw [he] at h
    simp at h
  rw [getLast?_dropWhile isPySpace _ hne, List.getLast?_reverse] at h
  cases hl : l.dropWhile isPySpace with
  | nil => rw [hl] at h; simp at h
  | cons e t' =>
    rw [hl, List.head?_cons, Option.some.injEq] at h
    exact h ▸ dropWhile_head_false isPySpace l e t' hl

/-- The last character of a stripped string is not whitespace. -/
theorem pstripL_last (l : List Char) (c : Char)
    (h : (pstripL l).getLast? = some c) : isPySpace c = false := by
  unfold pstripL at h
  rw [List.getLast?_reverse] at h
  cases hb : (l.dropWhile isPySpace).reverse.dropWhile isPySpace with
  | nil => rw [hb] at h; simp at h
  | cons d t =>
    rw [hb, List.head?_cons, Option.some.injEq] at h
    exact h ▸ dropWhile_head_false isPySpace _ d t hb

/-- A list with no leading and no trailing whitespace is a fixed point of
stripping. -/
theorem pstripL_fixed (l : List Char)
    (hhead : ∀ c, l.head? = some c → isPySpace c = false)
    (hlast : ∀ c, l.getLast? = some c → isPySpace c = false) :
    pstripL l = l := by
  unfold pstripL
  have h1 : l.dropWhile isPySpace = l := by
    cases hl : l with
    | nil => rfl
    | cons a t =>
      exact dropWhile_eq_self_of_head isPySpace (a :: t) a rfl
        (hhead a (by rw [hl, List.head?_cons]))
  rw [h1]
  have h2 : l.reverse.dropWhile isPySpace = l.reverse := by
    cases hl : l.reverse.head? with
    | none =>
      cases hr : l.reverse with
      | nil => rfl
      | cons a t => rw [hr, List.head?_cons] at hl; cases hl
    | some c =>
      refine dropWhile_eq_self_of_head isPySpace _ c hl (hlast c ?_)
      rw [← List.head?_reverse]
      exact hl
  rw [h2, List.reverse_reverse]

/-- Stripping is idempotent. -/
theorem pstripL_idem (l : List Char) : pstripL (pstripL l) = pstripL l :=
  pstripL_fixed _ (pstripL_head l) (pstripL_last l)

/-- Prepending the scheme to a stripped string leaves it stripped. -/
theorem pstripL_prefixed (l : List Char) :
    pstripL ("https://".data ++ pstripL l) = "https://".data ++ pstripL l := by
  apply pstripL_fixed
  · intro c h
    have hh : ("https://".data ++ pstripL l).head? = some 'h' := rfl
    rw [hh, Option.some.injEq] at h
    exact h ▸ (by decide : isPySpace 'h' = false)
  · intro c h
    rcases ht : pstripL l with _ | ⟨d, t⟩
    · rw [ht, List.append_nil] at h
      rw [(by decide : ("https://".data).getLast? = some '/'), Option.some.injEq] at h
      exact h ▸ (by decide : isPySpace '/' = false)
    · rw [List.getLast?_append_of_ne_nil _ (by rw [ht]; simp)] at h
      exact pstripL_last l c h

/-- A list is a prefix of itself followed by anything. -/
theorem isPrefixOf_append_self (x y : List Char) : x.isPrefixOf (x ++ y) = true := by
  rw [ List.isPrefixOf_iff_prefix]
  exact List.prefix_append x y

/-- The normalized URL always starts with a recognised scheme. -/
theorem startsWithHttp_normalizeUrlL (l : List Char) :
    startsWithHttp (normalizeUrlL l) = true := by
  unfold normalizeUrlL
  by_cases hs : startsWithHttp (pstripL l)
  · rw [if_pos hs]; exact hs
  · rw [if_neg hs]
    unfold startsWithHttp
    rw [isPrefixOf_append_self]
    simp

/-- The normalized URL is a fixed point of stripping. -/
theorem normalizeUrlL_stripped (l : List Char) :
    pstripL (normalizeUrlL l) = normalizeUrlL l := by
  unfold normalizeUrlL
  by_cases hs : startsWithHttp (pstripL l)
  · rw [if_pos hs]; exact pstripL_idem l
  · rw [if_neg hs]; exact pstripL_prefixed l

/-- A successful `validateUrlL` returns exactly the normalized input, and
the normalized input matches the regex. -/
theorem validateUrlL_some (l l2 : List Char) (h : validateUrlL l = some l2) :
    l2 = normalizeUrlL l ∧ urlRegexMatch l2 = true := by
  unfold validateUrlL at h
  by_cases hm : urlRegexMatch (normalizeUrlL l)
  · rw [if_pos hm, Option.some.injEq] at h
    subst h
    exact ⟨rfl, hm⟩
  · rw [if_neg hm] at h; cases h

/-- Claim C5: URL normalization trims whitespace and prepends `https://`
exactly when the trimmed string does not start with `http://` or
`https://`; in particular the input `example.com/page` is forwarded as
`https://example.com/page`. -/
theorem validate_url_normalizes (s out : String) (h : validate_url s = some out) :
    (startsWithHttp (pstrip s).data = true → out = pstrip s) ∧
    (startsWithHttp (pstrip s).data = false → out = "https://" ++ pstrip s) ∧
    validate_url "example.com/page" = some "https://example.com/page" := by
  unfold validate_url at h
  cases hv : validateUrlL s.data with
  | none => rw [hv] at h; cases h
  | some l2 =>
    rw [hv, Option.map_some', Option.some.injEq] at h
    obtain ⟨hn, _⟩ := validateUrlL_some _ _ hv
    refine ⟨?_, ?_, by decide⟩
    · intro hs
      have hs' : startsWithHttp (pstripL s.data) = true := hs
      apply String.ext
      rw [← h, hn]
      show normalizeUrlL s.data = (pstrip s).data
      unfold normalizeUrlL
      rw [if_pos hs']
      rfl
    · intro hs
      have hs' : startsWithHttp (pstripL s.data) = false := hs
      apply String.ext
      rw [← h, hn, String.data_append]
      show normalizeUrlL s.data = "https://".data ++ (pstrip s).data
      unfold normalizeUrlL
      rw [if_neg (by simp [hs'])]
      rfl

/-- Witness for C5 at the spec example input. -/
theorem validate_url_normalizes_witness :
    validate_url "example.com/page" = some "https://example.com/page" ∧
    (startsWithHttp (pstrip "example.com/page").data = false →
      ("https://example.com/page" : String) = "https://" ++ pstrip "example.com/page") :=
  ⟨by decide,
   (validate_url_normalizes "example.com/page" "https://example.com/page" (by decide)).2.1⟩

/-- Claim C10: `validate_url` is idempotent: every successful output is
accepted unchanged when validated again. -/
theorem validate_url_idempotent (s out : String) (h : validate_url s = some out) :
    validate_url out = some out := by
  unfold validate_url at h ⊢
  cases hv : validateUrlL s.data with
  | none => rw [hv] at h; cases h
  | some l2 =>
    rw [hv, Option.map_some', Option.some.injEq] at h
    obtain ⟨hn, hm⟩ := validateUrlL_some _ _ hv
    have hod : out.data = l2 := by rw [← h]
    have hst : pstripL l2 = l2 := by rw [hn]; exact normalizeUrlL_stripped s.data
    have hsw : startsWithHttp l2 = true := by
      rw [hn]; exact startsWithHttp_normalizeUrlL s.data
    have hnorm : normalizeUrlL l2 = l2 := by
      unfold normalizeUrlL
      rw [hst, if_pos hsw]
    rw [hod]
    unfold validateUrlL
    rw [hnorm, if_pos hm, Option.map_some', Option.some.injEq]
    exact h

/-- Witness for C10 at a concrete input needing normalization. -/
theorem validate_url_idempotent_witness :
    validate_url "example.com/page" = some "https://example.com/page" ∧
    validate_url "https://example.com/page" = some "https://example.com/page" :=
  ⟨by decide,
   validate_url_idempotent "example.com/page" "https://example.com/page" (by decide)⟩

/-- `hexCharVal` inverts `hexChar` on digit values. -/
theorem hexCharVal_hexChar : ∀ m, m < 16 → hexCharVal (hexChar m) = m := by decide

/-- `hexChar` produces lowercase hexadecimal digits. -/
theorem hexChar_hex : ∀ m, m < 16 → isHexDigitC (hexChar m) = true := by decide

/-- `hexFixed w n` has exactly `w` characters. -/
theorem hexFixed_length : ∀ (w n : Nat), (hexFixed w n).length = w := by
  intro w
  induction w with
  | zero => intro n; rfl
  | succ w ih => intro n; simp [hexFixed, ih]

/-- Decoding a fixed-width hexadecimal rendering recovers the number. -/
theorem hexValL_hexFixed : ∀ (w n : Nat), n < 16 ^ w → hexValL (hexFixed w n) = n := by
  intro w
  induction w with
  | zero =>
    intro n hn
    interval_cases n
    rfl
  | succ w ih =>
    intro n hn
    have hdiv : n / 16 < 16 ^ w := by
      rw [Nat.div_lt_iff_lt_mul (by norm_num)]
      rw [Nat.pow_succ] at hn
      exact hn
    have hmod : n % 16 < 16 := Nat.mod_lt _ (by norm_num)
    unfold hexFixed hexValL
    rw [List.foldl_append]
    show 16 * hexValL (hexFixed w (n / 16)) + hexCharVal (hexChar (n % 16)) = n
    rw [ih (n / 16) hdiv, hexCharVal_hexChar _ hmod]
    omega

/-- Every character of `hexFixed` is a lowercase hexadecimal digit. -/
theorem hexFixed_all_hex : ∀ (w n : Nat), (hexFixed w n).all isHexDigitC = true := by
  intro w
  induction w with
  | zero => intro n; rfl
  | succ w ih =>
    intro n
    unfold hexFixed
    rw [List.all_append, ih]
    simp [hexChar_hex (n % 16) (Nat.mod_lt _ (by norm_num))]

/-- No character of `hexFixed` is a dash. -/
theorem hexFixed_no_dash (w n : Nat) : ∀ c ∈ hexFixed w n, ¬ c = '-' := by
  intro c hc hcd
  have hall := hexFixed_all_hex w n
  rw [List.all_eq_true] at hall
  have hhex := hall c hc
  rw [hcd] at hhex
  exact absurd hhex (by decide)

/-- Extending a dash-free list keeps it dash-free. -/
theorem cons_no_dash (a : Char) (ha : ¬ a = '-') (t : List Char)
    (ht : ∀ c ∈ t, ¬ c = '-') : ∀ c ∈ a :: t, ¬ c = '-' := by
  intro c hc
  rcases List.mem_cons.mp hc with h | h
  · rw [h]; exact ha
  · exact ht c h

/-- `splitDash` of a dash-free list is that single group. -/
theorem splitDash_no_dash : ∀ a : List Char, (∀ c ∈ a, ¬ c = '-') → splitDash a = [a] := by
  intro a
  induction a with
  | nil => intro _; rfl
  | cons c t ih =>
    intro h
    conv_lhs => rw [splitDash]
    rw [if_neg (h c (by simp)), ih (fun d hd => h d (by simp [hd]))]

/-- `splitDash` peels one dash-free group before a dash. -/
theorem splitDash_append (a b : List Char) (h : ∀ c ∈ a, ¬ c = '-') :
    splitDash (a ++ '-' :: b) = a :: splitDash b := by
  induction a with
  | nil =>
    show splitDash ('-' :: b) = [] :: splitDash b
    conv_lhs => rw [splitDash]
    rw [if_pos rfl]
  | cons c t ih =>
    show splitDash (c :: (t ++ '-' :: b)) = (c :: t) :: splitDash b
    conv_lhs => rw [splitDash]
    rw [if_neg (h c (by simp)), ih (fun d hd => h d (by simp [hd]))]

/-- The five dash-separated groups of the modelled UUID. -/
theorem splitDash_uuid4Model (r : Nat) :
    splitDash ((uuid4Model r).data) =
      [hexFixed 8 (r / 16^22), hexFixed 4 (r / 16^18 % 16^4),
       '4' :: hexFixed 3 (r / 16^15 % 16^3), '8' :: hexFixed 3 (r / 16^12 % 16^3),
       hexFixed 12 (r % 16^12)] := by
  show splitDash (hexFixed 8 (r / 16^22) ++
    '-' :: (hexFixed 4 (r / 16^18 % 16^4) ++
    '-' :: '4' :: (hexFixed 3 (r / 16^15 % 16^3) ++
    '-' :: '8' :: (hexFixed 3 (r / 16^12 % 16^3) ++
    '-' :: hexFixed 12 (r % 16^12))))) = _
  rw [splitDash_append _ _ (hexFixed_no_dash 8 _)]
  rw [splitDash_append _ _ (hexFixed_no_dash 4 _)]
  rw [← List.cons_append]
  rw [splitDash_append _ _ (cons_no_dash '4' (by decide) _ (hexFixed_no_dash 3 _))]
  rw [← List.cons_append]
  rw [splitDash_append _ _ (cons_no_dash '8' (by decide) _ (hexFixed_no_dash 3 _))]
  rw [splitDash_no_dash _ (hexFixed_no_dash 12 _)]

/-- The modelled UUID is always well formed. -/
theorem isUUIDv4_uuid4Model (r : Nat) : isUUIDv4 (uuid4Model r) = true := by
  unfold isUUIDv4
  rw [splitDash_uuid4Model]
  simp [hexFixed_length, List.all_append, hexFixed_all_hex,
    (by decide : isHexDigitC '4' = true), (by decide : isHexDigitC '8' = true)]

/-- Distinct randomness below `16 ^ 30` yields distinct modelled UUIDs. -/
theorem uuid4Model_injective (r1 r2 : Nat) (h1 : r1 < 16^30) (h2 : r2 < 16^30)
    (he : uuid4Model r1 = uuid4Model r2) : r1 = r2 := by
  have hd : hexFixed 8 (r1 / 16^22) ++
      '-' :: (hexFixed 4 (r1 / 16^18 % 16^4) ++
      '-' :: '4' :: (hexFixed 3 (r1 / 16^15 % 16^3) ++
      '-' :: '8' :: (hexFixed 3 (r1 / 16^12 % 16^3) ++
      '-' :: hexFixed 12 (r1 % 16^12)))) =
      hexFixed 8 (r2 / 16^22) ++
      '-' :: (hexFixed 4 (r2 / 16^18 % 16^4) ++
      '-' :: '4' :: (hexFixed 3 (r2 / 16^15 % 16^3) ++
      '-' :: '8' :: (hexFixed 3 (r2 / 16^12 % 16^3) ++
      '-' :: hexFixed 12 (r2 % 16^12)))) := congrArg String.data he
  obtain ⟨e1, hr1⟩ := List.append_inj hd (by rw [hexFixed_length, hexFixed_length])
  rw [List.cons.injEq] at hr1
  obtain ⟨e2, hr2⟩ := List.append_inj hr1.2 (by rw [hexFixed_length, hexFixed_length])
  rw [List.cons.injEq] at hr2
  rw [List.cons.injEq] at hr2
  obtain ⟨e3, hr3⟩ := List.append_inj hr2.2.2 (by rw [hexFixed_length, hexFixed_length])
  rw [List.cons.injEq] at hr3
  rw [List.cons.injEq] at hr3
  obtain ⟨e4, hr4⟩ := List.append_inj hr3.2.2 (by rw [hexFixed_length, hexFixed_length])
  rw [List.cons.injEq] at hr4
  have e5 := hr4.2
  have hb1 : r1 / 16^22 < 16^8 := by
    rw [Nat.div_lt_iff_lt_mul (by positivity)]
    calc r1 < 16^30 := h1
    _ = 16^8 * 16^22 := by rw [← pow_add]
  have hb2 : r2 / 16^22 < 16^8 := by
    rw [Nat.div_lt_iff_lt_mul (by positivity)]
    calc r2 < 16^30 := h2
    _ = 16^8 * 16^22 := by rw [← pow_add]
  have q1 : r1 / 16^22 = r2 / 16^22 := by
    have hc := congrArg hexValL e1
    rwa [hexValL_hexFixed 8 _ hb1, hexValL_hexFixed 8 _ hb2] at hc
  have q2 : r1 / 16^18 % 16^4 = r2 / 16^18 % 16^4 := by
    have hc := congrArg hexValL e2
    rwa [hexValL_hexFixed 4 _ (Nat.mod_lt _ (by positivity)),
      hexValL_hexFixed 4 _ (Nat.mod_lt _ (by positivity))] at hc
  have q3 : r1 / 16^15 % 16^3 = r2 / 16^15 % 16^3 := by
    have hc := congrArg hexValL e3
    rwa [hexValL_hexFixed 3 _ (Nat.mod_lt _ (by positivity)),
      hexValL_hexFixed 3 _ (Nat.mod_lt _ (by positivity))] at hc
  have q4 : r1 / 16^12 % 16^3 = r2 / 16^12 % 16^3 := by
    have hc := congrArg hexValL e4
    rwa [hexValL_hexFixed 3 _ (Nat.mod_lt _ (by positivity)),
      hexValL_hexFixed 3 _ (Nat.mod_lt _ (by positivity))] at hc
  have q5 : r1 % 16^12 = r2 % 16^12 := by
    have hc := congrArg hexValL e5
    rwa [hexValL_hexFixed 12 _ (Nat.mod_lt _ (by positivity)),
      hexValL_hexFixed 12 _ (Nat.mod_lt _ (by positivity))] at hc
  norm_num at q1 q2 q3 q4 q5 h1 h2
  omega

/-- Claim C7: with valid inputs and a configured, responding downstream,
`/submit` returns success=true carrying the freshly generated session
identifier, which is a well-formed version-4 UUID and differs from the
identifier produced by any other randomness. -/
theorem submit_success_fresh_session (w email url u : String) (status r : Nat)
    (he : emailValid email = true) (hu : validate_url url = some u)
    (hr : r < 16^30) :
    (handleSubmit ⟨some w⟩ email url (.response status) r).1 =
      .ok ⟨true,
        "Article submitted successfully. You\x27ll receive the summary by email shortly.",
        uuid4Model r⟩ ∧
    (handleSubmit ⟨some w⟩ email url (.response status) r).2.generatedSessionIds =
      [uuid4Model r] ∧
    isUUIDv4 (uuid4Model r) = true ∧
    ∀ r' : Nat, r' < 16^30 → r' ≠ r → uuid4Model r' ≠ uuid4Model r := by
  refine ⟨?_, ?_, isUUIDv4_uuid4Model r, ?_⟩
  · simp [handleSubmit, parseSubmission, he, hu, submit_article]
  · simp [handleSubmit, parseSubmission, he, hu, submit_article]
  · intro r' hr' hne heq
    exact hne (uuid4Model_injective r' r hr' hr heq)

/-- Witness for C7 at a concrete request. -/
theorem submit_success_fresh_session_witness :
    emailValid "user@example.com" = true ∧
    validate_url "example.com/page" = some "https://example.com/page" ∧
    (0 : Nat) < 16^30 ∧
    ((handleSubmit ⟨some "https://n8n.example/webhook"⟩ "user@example.com"
        "example.com/page" (.response 200) 0).1 =
      .ok ⟨true,
        "Article submitted successfully. You\x27ll receive the summary by email shortly.",
        uuid4Model 0⟩ ∧
    (handleSubmit ⟨some "https://n8n.example/webhook"⟩ "user@example.com"
        "example.com/page" (.response 200) 0).2.generatedSessionIds = [uuid4Model 0] ∧
    isUUIDv4 (uuid4Model 0) = true ∧
    ∀ r' : Nat, r' < 16^30 → r' ≠ 0 → uuid4Model r' ≠ uuid4Model 0) :=
  ⟨by decide, by decide, pow_pos (by decide) 30,
   submit_success_fresh_session "https://n8n.example/webhook" "user@example.com"
     "example.com/page" "https://example.com/page" 200 0 (by decide) (by decide)
     (pow_pos (by decide) 30)⟩
